import Mathlib

/-!
Shallow embedding of the open-webui credit subsystem:
* `backend/open_webui/utils/credit/ezfp.py` — the EZFP payment-provider
  adapter (device classification, request signing, callback verification,
  trade creation);
* `backend/open_webui/models/credits.py` — the credit ledger, credit log
  and trade-ticket stores.

Python dictionaries carrying provider payloads are modelled as association
lists over `PyVal` (the value shapes that actually occur: ints and strings),
keeping Python truthiness and `!=` semantics.  Monetary values are modelled
in fixed point as integer multiples of `10^-12`, matching the SQL column
type `Numeric(precision=24, scale=12)`.  The MD5 digest is a parameter of
the signing functions: nothing proved here depends on its internals.
-/

set_option autoImplicit false

/-- A Python value as it occurs in EZFP payloads: an int or a str. -/
inductive PyVal where
  | int (n : Int)
  | str (s : String)
deriving Repr, DecidableEq

/-- Python truthiness for `PyVal` (`if v:`): `0` and `""` are falsy. -/
def PyVal.truthy : PyVal → Bool
  | .int n => n != 0
  | .str s => s != ""

/-- How a `PyVal` renders inside an f-string (`f"{k}={v}"`). -/
def PyVal.render : PyVal → String
  | .int n => toString n
  | .str s => s

/-- A Python dict with string keys, as an insertion-ordered association
list (keys unique in every dict the code builds). -/
abbrev Payload := List (String × PyVal)

/-- `payload.get(k)`-like total lookup (first entry with the key). -/
def dictGet (p : Payload) (k : String) : Option PyVal :=
  (p.find? (fun kv => kv.1 == k)).map (fun kv => kv.2)

/-- `payload[k]`: raises `KeyError` when the key is absent. -/
def dictGetItem (p : Payload) (k : String) : Except String PyVal :=
  match dictGet p k with
  | some v => Except.ok v
  | none => Except.error ("KeyError: " ++ k)

/-- `payload[k] = v`: update the entry in place keeping its position, or
append when the key is new (Python dict assignment; keys are unique in
every dict the code builds). -/
def dictSet : Payload → String → PyVal → Payload
  | [], k, v => [(k, v)]
  | kv :: rest, k, v =>
    if kv.1 == k then (k, v) :: rest else kv :: dictSet rest k v

/-- Lexicographic (code-point) order on character lists: Python's string
comparison. -/
def charListLe : List Char → List Char → Bool
  | [], _ => true
  | _ :: _, [] => false
  | c :: cs, d :: ds =>
    if c.toNat < d.toNat then true
    else if d.toNat < c.toNat then false
    else charListLe cs ds

/-- Python's `<=` on strings. -/
def strLe (a b : String) : Bool :=
  charListLe a.toList b.toList

/-- Insert a string into an ascending sorted list (one step of the model
of Python's `list.sort()` over strings). -/
def insertStr (x : String) : List String → List String
  | [] => [x]
  | y :: ys => if strLe x y then x :: y :: ys else y :: insertStr x ys

/-- Python `params.sort()`: sort strings ascending (lexicographic). -/
def sortStrings : List String → List String
  | [] => []
  | x :: xs => insertStr x (sortStrings xs)

/-- The `k=v` pairs that take part in signing: truthy values only, the
`sign` and `sign_type` fields excluded (ezfp.py lines 33-37). -/
def signParams (payload : Payload) : List String :=
  payload.filterMap (fun kv =>
    if kv.2.truthy && kv.1 != "sign" && kv.1 != "sign_type" then
      some (kv.1 ++ "=" ++ kv.2.render)
    else none)

/-- The plaintext that is hashed: sorted pairs joined by `&`, with the
shared secret `key` appended (ezfp.py lines 38-39). -/
def plainText (key : String) (payload : Payload) : String :=
  String.intercalate "&" (sortStrings (signParams payload)) ++ key

/-- `EZFPClient.sign` (ezfp.py lines 32-43), with the digest `md5` and the
shared secret `key` as parameters. -/
def sign (md5 : String → String) (key : String) (payload : Payload) : Payload :=
  let s := md5 (plainText key payload)
  dictSet (dictSet payload "sign" (PyVal.str s)) "sign_type" (PyVal.str "MD5")

/-- `EZFPClient.verify` (ezfp.py lines 45-52).  Subscripting a missing key
surfaces as `Except.error` (Python `KeyError`); the two `==` comparisons
short-circuit exactly as Python's `and` does.  `pid_cfg` is
`EZFP_PID.value`; a non-string payload pid compares unequal to it, as in
Python. -/
def verify (md5 : String → String) (key pid_cfg : String) (payload : Payload) :
    Except String Bool :=
  match dictGetItem payload "pid" with
  | Except.error e => Except.error e
  | Except.ok pid =>
    if pid ≠ PyVal.str pid_cfg then Except.ok false
    else
      let payload2 := sign md5 key payload
      match dictGetItem payload "sign" with
      | Except.error e => Except.error e
      | Except.ok s =>
        match dictGetItem payload2 "sign" with
        | Except.error e => Except.error e
        | Except.ok s2 =>
          if s == s2 then
            match dictGetItem payload "sign_type" with
            | Except.error e => Except.error e
            | Except.ok st =>
              match dictGetItem payload2 "sign_type" with
              | Except.error e => Except.error e
              | Except.ok st2 => Except.ok (st == st2)
          else Except.ok false

/-- Does `sub` occur at the head of `s`? -/
def startsWithChars (sub s : List Char) : Bool :=
  match sub, s with
  | [], _ => true
  | _ :: _, [] => false
  | x :: xs, y :: ys => x == y && startsWithChars xs ys

/-- Does `sub` occur anywhere inside `s`? -/
def containsChars (sub : List Char) : List Char → Bool
  | [] => sub.isEmpty
  | c :: rest => startsWithChars sub (c :: rest) || containsChars sub rest

/-- Python `sub in s`-style containment (`ua.find(sub) != -1`), with the
haystack already turned into characters. -/
def strContains (sub : String) (s : List Char) : Bool :=
  containsChars sub.toList s

/-- Python `s.lower()` (the user agents involved are ASCII). -/
def pyLower (s : String) : List Char :=
  s.toList.map Char.toLower

/-- `EZFPClient.get_device_from_ua` (ezfp.py lines 20-30). -/
def get_device_from_ua (ua : String) : String :=
  let l := pyLower ua
  if strContains "micromessenger" l then "wechat"
  else if strContains "qq" l then "qq"
  else if strContains "alipay" l then "alipay"
  else if strContains "android" l || strContains "iphone" l then "mobile"
  else "pc"

example : get_device_from_ua "Mozilla Android QQ/1.0" = "qq" := by decide
example : get_device_from_ua "Mozilla iPhone" = "mobile" := by decide
example : get_device_from_ua "" = "pc" := by decide

/-- A monetary amount, in fixed point: an integer count of `10^-12`
units, matching the SQL type `Numeric(precision=24, scale=12)` the code
stores every balance and amount in. -/
abbrev Money := Int

/-- One `10^-12` unit (`0.000000000001` as a `Money`). -/
def microUnit : Money := 1

/-- `10.000000000000` as a `Money`. -/
def tenUnits : Money := 10000000000000

/-- The EZFP-related configuration values read in ezfp.py. -/
structure EzfpConfig where
  /-- `EZFP_PID.value` (the merchant identifier, a string). -/
  pid : String
  /-- `int(EZFP_PID.value)`, as placed into outbound payloads. -/
  pid_int : Int
  /-- `EZFP_KEY.value` (the shared signing secret). -/
  key : String
  /-- `EZFP_CALLBACK_HOST.value`. -/
  callback_host : String
  /-- `WEBUI_NAME`. -/
  webui_name : String
deriving Repr

/-- Python `s.rstrip("/")`. -/
def rstripSlash (s : String) : String :=
  String.mk (s.toList.reverse.dropWhile (fun c => c == '/')).reverse

/-- Python's `"%.2f" % amount` on a fixed-point amount: round to cents,
ties to even, and render with two decimals. -/
def formatMoney2 (m : Money) : String :=
  let scale : Int := 10000000000
  let q := m / scale
  let r := m % scale
  let cents : Int :=
    if 2 * r < scale then q
    else if 2 * r > scale then q + 1
    else if q % 2 == 0 then q else q + 1
  let unsigned := cents.natAbs
  let head := if cents < 0 then "-" else ""
  head ++ toString (unsigned / 100) ++ "." ++
    (if unsigned % 100 < 10 then "0" else "") ++ toString (unsigned % 100)

/-- `EZFPClient.create_trade` (ezfp.py lines 54-78).  The HTTP post plus
JSON parse is a `transport` parameter: `Except.error` is the exception it
may raise, whose `str(err)` is the carried string.  The function is total:
a transport failure becomes the synthetic `{"code": -1, "msg": ...}`
response (lines 75-76). -/
def create_trade (md5 : String → String) (cfg : EzfpConfig)
    (pay_type out_trade_no : String) (amount : Money) (client_ip ua : String)
    (transport : Payload → Except String Payload) : Payload :=
  let payload : Payload := [
    ("pid", PyVal.int cfg.pid_int),
    ("type", PyVal.str pay_type),
    ("out_trade_no", PyVal.str out_trade_no),
    ("notify_url", PyVal.str (rstripSlash cfg.callback_host ++ "/api/v1/credit/callback")),
    ("return_url", PyVal.str cfg.callback_host),
    ("name", PyVal.str (cfg.webui_name ++ " Credit")),
    ("money", PyVal.str (formatMoney2 amount)),
    ("clientip", PyVal.str client_ip),
    ("device", PyVal.str (get_device_from_ua ua))
  ]
  let payload := sign md5 cfg.key payload
  match transport payload with
  | Except.ok resp => resp
  | Except.error err => [("code", PyVal.int (-1)), ("msg", PyVal.str err)]

/-!
## The credit ledger (models/credits.py)

The three SQL tables become lists of rows inside a `DB` state.  Row ids
(`uuid.uuid4().hex`) come from a `fresh` counter, and `int(time.time())`
from a `now` field, so that every operation is a pure state transformer.
Persistence failures (a failing insert inside `insert_new_credit`, a
failing transaction commit inside `set`/`add`) are oracle booleans
threaded into the operations; a raised exception is an `Except.error`
carrying the `HTTPException` the Python raises, with status 500 standing
for any underlying database exception that propagates. -/

/-- `fastapi.HTTPException`. -/
structure HTTPExc where
  status_code : Nat
  detail : String
deriving Repr, DecidableEq

/-- One row of the `credit` table. -/
structure CreditRow where
  id : String
  user_id : String
  credit : Money
  updated_at : Int
  created_at : Int
deriving Repr, DecidableEq

/-- `SetCreditFormDetail` (credits.py lines 93-97). -/
structure SetCreditFormDetail where
  api_path : String := ""
  api_params : List (String × String) := []
  desc : String := ""
  usage : List (String × String) := []
deriving Repr, DecidableEq

/-- One row of the `credit_log` table. -/
structure CreditLogRow where
  id : String
  user_id : String
  credit : Money
  detail : SetCreditFormDetail
  created_at : Int
deriving Repr, DecidableEq

/-- One row of the `trade_ticket` table; `detail` is a JSON dict. -/
structure TradeTicketRow where
  id : String
  user_id : String
  amount : Money
  detail : List (String × String)
  created_at : Int
deriving Repr, DecidableEq

/-- The whole persistent state, plus the id/time sources. -/
structure DB where
  credits : List CreditRow
  credit_logs : List CreditLogRow
  trade_tickets : List TradeTicketRow
  now : Int := 0
  fresh : Nat := 0
deriving Repr, DecidableEq

/-- The next `uuid.uuid4().hex` a model run hands out. -/
def freshId (db : DB) : String :=
  "row-" ++ toString db.fresh

/-- `CREDIT_DEFAULT_CREDIT` and friends. -/
structure CreditConfig where
  default_credit : Money
deriving Repr

/-- `AddCreditForm` (credits.py lines 100-103). -/
structure AddCreditForm where
  user_id : String
  amount : Money
  detail : SetCreditFormDetail
deriving Repr

/-- `SetCreditForm` (credits.py lines 106-109). -/
structure SetCreditForm where
  user_id : String
  credit : Money
  detail : SetCreditFormDetail
deriving Repr

/-- `CreditsTable.get_credit_by_user_id` (credits.py lines 151-157):
`.first()` of the rows whose `user_id` matches; a missing row surfaces as
`None` (the swallowed `model_validate(None)` failure). -/
def get_credit_by_user_id (db : DB) (user_id : String) : Option CreditRow :=
  db.credits.find? (fun c => c.user_id == user_id)

/-- `CreditsTable.insert_new_credit` (credits.py lines 127-141): inserts a
fresh row holding the configured default; the unique constraint on
`user_id`, or any persistence failure (`insertOk = false`), makes it
return `none` with the table unchanged. -/
def insert_new_credit (cfg : CreditConfig) (db : DB) (user_id : String)
    (insertOk : Bool) : DB × Option CreditRow :=
  if db.credits.any (fun c => c.user_id == user_id) || !insertOk then
    (db, none)
  else
    let row : CreditRow :=
      { id := freshId db, user_id := user_id, credit := cfg.default_credit,
        updated_at := db.now, created_at := db.now }
    ({ db with credits := db.credits ++ [row], fresh := db.fresh + 1 }, some row)

/-- `CreditsTable.init_credit_by_user_id` (credits.py lines 143-149):
return the existing row, else insert one; raise HTTP 500 when neither
produced a row. -/
def init_credit_by_user_id (cfg : CreditConfig) (db : DB) (user_id : String)
    (insertOk : Bool) : DB × Except HTTPExc CreditRow :=
  match get_credit_by_user_id db user_id with
  | some c => (db, Except.ok c)
  | none =>
    match insert_new_credit cfg db user_id insertOk with
    | (db1, some c) => (db1, Except.ok c)
    | (db1, none) => (db1, Except.error ⟨500, "credit initialize failed"⟩)

/-- `CreditsTable.set_credit_by_user_id` (credits.py lines 167-181):
init, build the log entry carrying the new absolute value, then, in one
transaction, append the log row and overwrite the balance.  `commitOk`
models whether that transaction's commit succeeds; on failure the raised
database error (standing here as an HTTP 500) leaves both writes
unapplied. -/
def set_credit_by_user_id (cfg : CreditConfig) (db : DB) (form : SetCreditForm)
    (insertOk commitOk : Bool) : DB × Except HTTPExc (Option CreditRow) :=
  match init_credit_by_user_id cfg db form.user_id insertOk with
  | (db1, Except.error e) => (db1, Except.error e)
  | (db1, Except.ok credit_model) =>
    let logRow : CreditLogRow :=
      { id := freshId db1, user_id := form.user_id, credit := form.credit,
        detail := form.detail, created_at := db1.now }
    if commitOk then
      let db2 : DB :=
        { db1 with
          credit_logs := db1.credit_logs ++ [logRow],
          credits := db1.credits.map (fun c =>
            if c.user_id == credit_model.user_id then
              { c with credit := form.credit, updated_at := db1.now }
            else c),
          fresh := db1.fresh + 1 }
      (db2, Except.ok (get_credit_by_user_id db2 form.user_id))
    else (db1, Except.error ⟨500, "database commit failed"⟩)

/-- `CreditsTable.add_credit_by_user_id` (credits.py lines 183-200):
init, build the log entry carrying `credit_model.credit + amount` (the
snapshot computed in application code), then, in one transaction, append
the log row and increment the balance server-side
(`Credit.credit + amount`). -/
def add_credit_by_user_id (cfg : CreditConfig) (db : DB) (form : AddCreditForm)
    (insertOk commitOk : Bool) : DB × Except HTTPExc (Option CreditRow) :=
  match init_credit_by_user_id cfg db form.user_id insertOk with
  | (db1, Except.error e) => (db1, Except.error e)
  | (db1, Except.ok credit_model) =>
    let logRow : CreditLogRow :=
      { id := freshId db1, user_id := form.user_id,
        credit := credit_model.credit + form.amount,
        detail := form.detail, created_at := db1.now }
    if commitOk then
      let db2 : DB :=
        { db1 with
          credit_logs := db1.credit_logs ++ [logRow],
          credits := db1.credits.map (fun c =>
            if c.user_id == form.user_id then
              { c with credit := c.credit + form.amount, updated_at := db1.now }
            else c),
          fresh := db1.fresh + 1 }
      (db2, Except.ok (get_credit_by_user_id db2 form.user_id))
    else (db1, Except.error ⟨500, "database commit failed"⟩)

/-- The error annotation `check_credit_by_user_id` can write into a chat
message (the `Chats.upsert_message_to_chat_by_id_and_message_id` call with
payload `{"error": {"content": error_msg}}`). -/
structure ChatAnnotation where
  chat_id : String
  message_id : String
  error_content : String
deriving Repr, DecidableEq

/-- Python truthiness of an optional string (`metadata.get(k)`). -/
def pyTruthyOpt : Option String → Bool
  | none => false
  | some s => s != ""

/-- Python `a or b` over the two optional strings. -/
def pyOr (a b : Option String) : Option String :=
  if pyTruthyOpt a then a else b

/-- `metadata.get(k)` on the metadata dict. -/
def metaGet (md : List (String × String)) (k : String) : Option String :=
  (md.find? (fun kv => kv.1 == k)).map (fun kv => kv.2)

/-- `CreditsTable.check_credit_by_user_id` (credits.py lines 202-214):
init the balance row, and when the balance is `<= 0` optionally annotate
the chat message named by the metadata, then raise HTTP 403 with the
given message.  (The code's `credit is None` disjunct is dead:
`init_credit_by_user_id` raises instead of returning `None`.)  The middle
component collects the chat annotations performed. -/
def check_credit_by_user_id (cfg : CreditConfig) (db : DB)
    (user_id error_msg : String) (metadata : Option (List (String × String)))
    (insertOk : Bool) : DB × List ChatAnnotation × Except HTTPExc Unit :=
  match init_credit_by_user_id cfg db user_id insertOk with
  | (db1, Except.error e) => (db1, [], Except.error e)
  | (db1, Except.ok credit) =>
    if credit.credit ≤ 0 then
      let annots : List ChatAnnotation :=
        match metadata with
        | none => []
        | some md =>
          if md.isEmpty then []
          else
            let chat_id := metaGet md "chat_id"
            let message_id := pyOr (metaGet md "message_id") (metaGet md "id")
            if pyTruthyOpt chat_id && pyTruthyOpt message_id then
              [⟨chat_id.getD "", message_id.getD "", error_msg⟩]
            else []
      (db1, annots, Except.error ⟨403, error_msg⟩)
    else (db1, [], Except.ok ())

/-- `TradeTicketTable.insert_new_ticket` (credits.py lines 221-236): the
primary key on `trade_ticket.id` makes the commit of a duplicate id raise
an integrity error, which the `except` clause rewraps as
`HTTPException(status_code=500, detail=str(err))`. -/
def insert_new_ticket (db : DB) (id user_id : String) (amount : Money)
    (detail : List (String × String)) : DB × Except HTTPExc TradeTicketRow :=
  if db.trade_tickets.any (fun t => t.id == id) then
    (db, Except.error ⟨500, "UNIQUE constraint failed: trade_ticket.id"⟩)
  else
    let t : TradeTicketRow :=
      { id := id, user_id := user_id, amount := amount, detail := detail,
        created_at := db.now }
    ({ db with trade_tickets := db.trade_tickets ++ [t] }, Except.ok t)

/-- `TradeTicketTable.get_ticket_by_id` (credits.py lines 238-244). -/
def get_ticket_by_id (db : DB) (id : String) : Option TradeTicketRow :=
  db.trade_tickets.find? (fun t => t.id == id)

/-- `TradeTicketTable.update_credit_by_id` (credits.py lines 246-262):
overwrite the ticket's detail and commit, re-read the ticket, then credit
its user with its amount under the fixed description `"payment success"`.
Any exception (including a missing ticket: `ticket.user_id` on `None`) is
swallowed; the function always returns `None` (no `return` in the `try`
body). -/
def update_credit_by_id (cfg : CreditConfig) (db : DB) (id : String)
    (detail : List (String × String)) (insertOk commitOk : Bool) :
    DB × Option TradeTicketRow :=
  let db1 : DB :=
    { db with trade_tickets := db.trade_tickets.map (fun t =>
        if t.id == id then { t with detail := detail } else t) }
  match get_ticket_by_id db1 id with
  | none => (db1, none)
  | some ticket =>
    let result := add_credit_by_user_id cfg db1
      { user_id := ticket.user_id, amount := ticket.amount,
        detail := { desc := "payment success" } } insertOk commitOk
    (result.1, none)

/-- Insert a log row into a list sorted by `created_at` descending. -/
def insertLogDesc (x : CreditLogRow) : List CreditLogRow → List CreditLogRow
  | [] => [x]
  | y :: ys =>
    if y.created_at ≤ x.created_at then x :: y :: ys
    else y :: insertLogDesc x ys

/-- `ORDER BY created_at DESC` over credit-log rows. -/
def sortLogsDesc : List CreditLogRow → List CreditLogRow
  | [] => []
  | x :: xs => insertLogDesc x (sortLogsDesc xs)

/-- `CreditLogTable.get_credit_log_by_user_id` (credits.py lines
269-280): the rows of the user, newest first; `if offset:` and
`if limit:` make `0` and `None` both mean "not applied". -/
def get_credit_log_by_user_id (db : DB) (user_id : String)
    (offset limit : Option Nat) : List CreditLogRow :=
  let q := db.credit_logs.filter (fun l => l.user_id == user_id)
  let q := sortLogsDesc q
  let q := match offset with
    | some n => if n ≠ 0 then q.drop n else q
    | none => q
  match limit with
  | some n => if n ≠ 0 then q.take n else q
  | none => q

/-!
## Concrete states used by the settlement scenario
-/

/-- A configuration whose default starting balance is zero. -/
def cfg0 : CreditConfig := { default_credit := 0 }

/-- The state of the worked scenario: ticket `"t1"` for user `"u1"` over
`10.000000000000`, the user's balance row at `0`, no log entries. -/
def scenario_db : DB :=
  { credits := [{ id := "c-u1", user_id := "u1", credit := 0,
                  updated_at := 0, created_at := 0 }],
    credit_logs := [],
    trade_tickets := [{ id := "t1", user_id := "u1", amount := tenUnits,
                        detail := [], created_at := 0 }] }

/-- The state after one settlement of `"t1"`. -/
def scenario_settled : DB :=
  (update_credit_by_id cfg0 scenario_db "t1" [("status", "success")] true true).1

/-- The state after settling `"t1"` twice. -/
def scenario_settled_twice : DB :=
  (update_credit_by_id cfg0 scenario_settled "t1" [("status", "success")] true true).1

example :
    (get_credit_by_user_id scenario_settled "u1").map (fun c => c.credit) =
      some tenUnits := by decide
example :
    (get_credit_by_user_id scenario_settled_twice "u1").map (fun c => c.credit) =
      some (tenUnits + tenUnits) := by decide
example :
    scenario_settled.credit_logs.filter (fun l => l.user_id == "u1") =
      [{ id := "row-0", user_id := "u1", credit := tenUnits,
         detail := { desc := "payment success" }, created_at := 0 }] := by decide

/-!
## Helper lemmas about the payload dictionary and signing
-/

theorem dictGet_dictSet_self (p : Payload) (k : String) (v : PyVal) :
    dictGet (dictSet p k v) k = some v := by
  induction p with
  | nil => simp [dictSet, dictGet]
  | cons a t ih =>
    by_cases ha : (a.1 == k) = true
    · simp [dictSet, ha, dictGet]
    · simpa [dictSet, ha, dictGet] using ih

theorem dictGet_dictSet_ne (p : Payload) (k k' : String) (v : PyVal)
    (hne : k' ≠ k) : dictGet (dictSet p k v) k' = dictGet p k' := by
  induction p with
  | nil => simp [dictSet, dictGet, Ne.symm hne]
  | cons a t ih =>
    by_cases ha : (a.1 == k) = true
    · have ha' : a.1 = k := by simpa using ha
      simp [dictSet, ha, dictGet, ha', Ne.symm hne]
    · by_cases ha' : (a.1 == k') = true
      · simp [dictSet, ha, dictGet, ha']
      · simpa [dictSet, ha, dictGet, ha'] using ih

theorem signParams_dictSet_sig (p : Payload) (k : String) (v : PyVal)
    (hk : k = "sign" ∨ k = "sign_type") :
    signParams (dictSet p k v) = signParams p := by
  have hfilter : ∀ w : PyVal,
      (if w.truthy && k != "sign" && k != "sign_type" then
        some (k ++ "=" ++ w.render) else none) = (none : Option String) := by
    intro w
    rcases hk with h | h <;> subst h <;> simp
  induction p with
  | nil =>
    unfold dictSet signParams
    rw [List.filterMap_cons, hfilter v]
  | cons a t ih =>
    unfold dictSet
    by_cases ha : (a.1 == k) = true
    · have ha' : a.1 = k := by simpa using ha
      rw [if_pos ha]
      unfold signParams
      rw [List.filterMap_cons, hfilter v, List.filterMap_cons]
      have : (if a.2.truthy && a.1 != "sign" && a.1 != "sign_type" then
          some (a.1 ++ "=" ++ a.2.render) else none) = (none : Option String) := by
        rw [ha']
        exact hfilter a.2
      rw [this]
    · rw [if_neg ha]
      unfold signParams at ih ⊢
      rw [List.filterMap_cons, List.filterMap_cons]
      cases hx : (if a.2.truthy && a.1 != "sign" && a.1 != "sign_type" then
          some (a.1 ++ "=" ++ a.2.render) else none) <;>
        simp only [hx] <;> rw [ih]

theorem signParams_sign (md5 : String → String) (key : String) (p : Payload) :
    signParams (sign md5 key p) = signParams p := by
  unfold sign
  rw [signParams_dictSet_sig _ _ _ (Or.inr rfl),
    signParams_dictSet_sig _ _ _ (Or.inl rfl)]

theorem plainText_sign (md5 : String → String) (key key' : String) (p : Payload) :
    plainText key (sign md5 key' p) = plainText key p := by
  unfold plainText
  rw [signParams_sign]

theorem dictGet_sign_sig (md5 : String → String) (key : String) (p : Payload) :
    dictGet (sign md5 key p) "sign" =
      some (PyVal.str (md5 (plainText key p))) := by
  unfold sign
  rw [dictGet_dictSet_ne _ _ _ _ (by decide), dictGet_dictSet_self]

theorem dictGet_sign_sigtype (md5 : String → String) (key : String) (p : Payload) :
    dictGet (sign md5 key p) "sign_type" = some (PyVal.str "MD5") := by
  unfold sign
  rw [dictGet_dictSet_self]

theorem dictGet_sign_other (md5 : String → String) (key k : String) (p : Payload)
    (h1 : k ≠ "sign") (h2 : k ≠ "sign_type") :
    dictGet (sign md5 key p) k = dictGet p k := by
  unfold sign
  rw [dictGet_dictSet_ne _ _ _ _ h2, dictGet_dictSet_ne _ _ _ _ h1]

theorem dictGetItem_of_some {p : Payload} {k : String} {v : PyVal}
    (h : dictGet p k = some v) : dictGetItem p k = Except.ok v := by
  unfold dictGetItem
  rw [h]

theorem verify_sign_ok (md5 : String → String) (key pid_cfg : String) (p : Payload)
    (hpid : dictGet p "pid" = some (PyVal.str pid_cfg)) :
    verify md5 key pid_cfg (sign md5 key p) = Except.ok true := by
  have hpid1 : dictGetItem (sign md5 key p) "pid" = Except.ok (PyVal.str pid_cfg) := by
    apply dictGetItem_of_some
    rw [dictGet_sign_other md5 key "pid" p (by decide) (by decide), hpid]
  have h1 : dictGetItem (sign md5 key p) "sign" =
      Except.ok (PyVal.str (md5 (plainText key p))) :=
    dictGetItem_of_some (dictGet_sign_sig md5 key p)
  have h2 : dictGetItem (sign md5 key (sign md5 key p)) "sign" =
      Except.ok (PyVal.str (md5 (plainText key p))) := by
    have := dictGetItem_of_some (dictGet_sign_sig md5 key (sign md5 key p))
    rwa [plainText_sign] at this
  have h3 : dictGetItem (sign md5 key p) "sign_type" =
      Except.ok (PyVal.str "MD5") :=
    dictGetItem_of_some (dictGet_sign_sigtype md5 key p)
  have h4 : dictGetItem (sign md5 key (sign md5 key p)) "sign_type" =
      Except.ok (PyVal.str "MD5") :=
    dictGetItem_of_some (dictGet_sign_sigtype md5 key (sign md5 key p))
  unfold verify
  rw [hpid1]
  simp [h1, h2, h3, h4]

theorem verify_tampered (md5 : String → String) (key pid_cfg : String) (p : Payload)
    (k : String) (v' : PyVal)
    (hinj : Function.Injective md5)
    (hk1 : k ≠ "sign") (hk2 : k ≠ "sign_type")
    (hpid : dictGet p "pid" = some (PyVal.str pid_cfg))
    (hne : plainText key (dictSet (sign md5 key p) k v') ≠ plainText key p) :
    verify md5 key pid_cfg (dictSet (sign md5 key p) k v') = Except.ok false := by
  set q := dictSet (sign md5 key p) k v' with hq
  have hsig : dictGet q "sign" = some (PyVal.str (md5 (plainText key p))) := by
    rw [hq, dictGet_dictSet_ne _ _ _ _ (Ne.symm hk1), dictGet_sign_sig]
  have hs2 : dictGetItem (sign md5 key q) "sign" =
      Except.ok (PyVal.str (md5 (plainText key q))) :=
    dictGetItem_of_some (dictGet_sign_sig md5 key q)
  have hsne : (PyVal.str (md5 (plainText key p)) ==
      PyVal.str (md5 (plainText key q))) = false := by
    simp only [beq_eq_false_iff_ne, ne_eq, PyVal.str.injEq]
    intro h
    exact hne (hinj h.symm ▸ rfl)
  by_cases hkp : k = "pid"
  · subst hkp
    have hpidq : dictGet q "pid" = some v' := by
      rw [hq, dictGet_dictSet_self]
    by_cases hv : v' = PyVal.str pid_cfg
    · subst hv
      unfold verify
      rw [dictGetItem_of_some hpidq]
      simp [dictGetItem_of_some hsig, hs2, hsne]
    · unfold verify
      rw [dictGetItem_of_some hpidq]
      simp [hv]
  · have hpidq : dictGetItem q "pid" = Except.ok (PyVal.str pid_cfg) := by
      apply dictGetItem_of_some
      rw [hq, dictGet_dictSet_ne _ _ _ _ (fun h => hkp h.symm),
        dictGet_sign_other md5 key "pid" p (by decide) (by decide), hpid]
    unfold verify
    rw [hpidq]
    simp [dictGetItem_of_some hsig, hs2, hsne]

/-!
## Claims C3 and C4: the signing round trip and malformed callbacks
-/

/-- The payload of the C3 counterexample: its `foo` field is falsy, so it
takes no part in the signing plaintext. -/
def tamper_demo_payload : Payload := [("pid", PyVal.str "1000"), ("foo", PyVal.str "")]

/-- `tamper_demo_payload` after signing (with the identity digest and
shared secret `"K"`). -/
def tamper_demo_signed : Payload := sign id "K" tamper_demo_payload

/-- The signed payload with the non-signature field `foo` changed from
`""` to `0` — another falsy value, so the signing plaintext is unchanged. -/
def tamper_demo_mutated : Payload := dictSet tamper_demo_signed "foo" (PyVal.int 0)

/-- C3 (counterexample): changing the single non-signature field `foo` of a
signed payload from `""` to `0` leaves `verify` returning true, because
falsy values are excluded from the signing plaintext (`ezfp.py` line 36,
`if v and ...`).  So mutating a non-signature field does not always make
`verify` false. -/
theorem C3_tamper_not_always_detected :
    dictGet tamper_demo_mutated "foo" = some (PyVal.int 0) ∧
    dictGet tamper_demo_signed "foo" = some (PyVal.str "") ∧
    verify id "K" "1000" tamper_demo_mutated = Except.ok true :=
  ⟨by decide, by decide, by rfl⟩

/-- C3 (amended): for any digest and any payload whose `pid` equals the
configured merchant id, `verify` accepts the signed payload; and mutating
a single non-signature field afterwards makes `verify` return false
whenever the mutation changes the signing plaintext (in particular,
whenever a truthy value is changed to a differently-rendered truthy
value) and the digest is injective. -/
theorem C3_sign_verify_roundtrip (md5 : String → String) (key pid_cfg : String)
    (p : Payload) (k : String) (v' : PyVal)
    (hinj : Function.Injective md5)
    (hk1 : k ≠ "sign") (hk2 : k ≠ "sign_type")
    (hpid : dictGet p "pid" = some (PyVal.str pid_cfg)) :
    verify md5 key pid_cfg (sign md5 key p) = Except.ok true ∧
    (plainText key (dictSet (sign md5 key p) k v') ≠ plainText key p →
      verify md5 key pid_cfg (dictSet (sign md5 key p) k v') = Except.ok false) :=
  ⟨verify_sign_ok md5 key pid_cfg p hpid,
   fun hne => verify_tampered md5 key pid_cfg p k v' hinj hk1 hk2 hpid hne⟩

/-- C3 (witness): the amended statement at a concrete payload
`{pid: "1000", money: "5"}`, mutating `money` to `"6"`. -/
theorem C3_sign_verify_roundtrip_witness :
    verify id "K" "1000" (sign id "K" [("pid", PyVal.str "1000"), ("money", PyVal.str "5")]) =
      Except.ok true ∧
    verify id "K" "1000"
      (dictSet (sign id "K" [("pid", PyVal.str "1000"), ("money", PyVal.str "5")])
        "money" (PyVal.str "6")) = Except.ok false := by
  have h := C3_sign_verify_roundtrip id "K" "1000"
    [("pid", PyVal.str "1000"), ("money", PyVal.str "5")] "money" (PyVal.str "6")
    Function.injective_id (by decide) (by decide) (by decide)
  exact ⟨h.1, h.2 (by decide)⟩

/-- C4 (counterexample): a callback payload with no `pid` key makes
`verify` raise `KeyError` (`payload["pid"]`, ezfp.py line 46) instead of
returning false. -/
theorem C4_verify_raises_on_missing_pid :
    verify id "K" "1000" [("money", PyVal.str "5")] = Except.error "KeyError: pid" := by
  rfl

/-- C4 (amended): `verify` returns false without raising on a `pid`
mismatch, and never raises on payloads that contain the `pid`, `sign` and
`sign_type` keys; but a payload missing `pid` makes it raise `KeyError`
(the counterexample), so "never raises on any malformed input" is false. -/
theorem C4_verify_no_raise_when_keys_present (md5 : String → String)
    (key pid_cfg : String) (p : Payload) :
    (dictGet p "pid" = none →
      verify md5 key pid_cfg p = Except.error "KeyError: pid") ∧
    (∀ v, dictGet p "pid" = some v → v ≠ PyVal.str pid_cfg →
      verify md5 key pid_cfg p = Except.ok false) ∧
    ((dictGet p "pid").isSome = true → (dictGet p "sign").isSome = true →
      (dictGet p "sign_type").isSome = true →
      ∃ b, verify md5 key pid_cfg p = Except.ok b) := by
  refine ⟨?_, ?_, ?_⟩
  · intro h
    unfold verify dictGetItem
    rw [h]
    rfl
  · intro v hv hvne
    unfold verify
    rw [dictGetItem_of_some hv]
    simp [hvne]
  · intro h1 h2 h3
    obtain ⟨pv, hpv⟩ := Option.isSome_iff_exists.mp h1
    obtain ⟨sv, hsv⟩ := Option.isSome_iff_exists.mp h2
    obtain ⟨tv, htv⟩ := Option.isSome_iff_exists.mp h3
    by_cases hp : pv = PyVal.str pid_cfg
    · subst hp
      have hs2 : dictGetItem (sign md5 key p) "sign" =
          Except.ok (PyVal.str (md5 (plainText key p))) :=
        dictGetItem_of_some (dictGet_sign_sig md5 key p)
      have ht2 : dictGetItem (sign md5 key p) "sign_type" =
          Except.ok (PyVal.str "MD5") :=
        dictGetItem_of_some (dictGet_sign_sigtype md5 key p)
      by_cases hcmp : (sv == PyVal.str (md5 (plainText key p))) = true
      · refine ⟨tv == PyVal.str "MD5", ?_⟩
        unfold verify
        rw [dictGetItem_of_some hpv]
        simp [dictGetItem_of_some hsv, hs2, dictGetItem_of_some htv, ht2, hcmp]
      · refine ⟨false, ?_⟩
        unfold verify
        rw [dictGetItem_of_some hpv]
        simp only [ne_eq, not_true_eq_false, if_neg]
        rw [dictGetItem_of_some hsv, hs2]
        simp [Bool.eq_false_iff.mpr hcmp]
    · refine ⟨false, ?_⟩
      unfold verify
      rw [dictGetItem_of_some hpv]
      simp [hp]

/-- C4 (witness): the no-raise part of the amended statement at a
concrete complete payload. -/
theorem C4_verify_no_raise_witness :
    ∃ b, verify id "K" "1000"
      [("pid", PyVal.str "1000"), ("sign", PyVal.str "x"),
       ("sign_type", PyVal.str "MD5")] = Except.ok b :=
  (C4_verify_no_raise_when_keys_present id "K" "1000"
    [("pid", PyVal.str "1000"), ("sign", PyVal.str "x"),
     ("sign_type", PyVal.str "MD5")]).2.2 (by decide) (by decide) (by decide)

/-!
## Claim C6: device classification
-/

/-- Modelled from the spec's words: the classification priority list —
wechat before qq before alipay before mobile (android or iphone). -/
def device_priority : List (String × String) :=
  [("micromessenger", "wechat"), ("qq", "qq"), ("alipay", "alipay"),
   ("android", "mobile"), ("iphone", "mobile")]

/-- Modelled from the spec's words: lowercase the user agent and return
the class of the first matching substring in priority order, defaulting
to `"pc"`. -/
def device_spec (ua : String) : String :=
  match device_priority.find? (fun kv => strContains kv.1 (pyLower ua)) with
  | some kv => kv.2
  | none => "pc"

/-- C6: device classification lowercases the user agent and returns the
first match in priority order wechat, qq, alipay, mobile (android or
iphone), defaulting to pc; `"Mozilla Android QQ/1.0"` classifies as
`"qq"`, `"Mozilla iPhone"` as `"mobile"`, the empty string as `"pc"`. -/
theorem C6_device_classification :
    (∀ ua, get_device_from_ua ua = device_spec ua) ∧
    get_device_from_ua "Mozilla Android QQ/1.0" = "qq" ∧
    get_device_from_ua "Mozilla iPhone" = "mobile" ∧
    get_device_from_ua "" = "pc" := by
  refine ⟨?_, by decide, by decide, by decide⟩
  intro ua
  unfold get_device_from_ua device_spec device_priority
  cases h1 : strContains "micromessenger" (pyLower ua) <;>
    cases h2 : strContains "qq" (pyLower ua) <;>
      cases h3 : strContains "alipay" (pyLower ua) <;>
        cases h4 : strContains "android" (pyLower ua) <;>
          cases h5 : strContains "iphone" (pyLower ua) <;>
            simp [List.find?, h1, h2, h3, h4, h5]

/-!
## Claim C7: trade creation never propagates transport failures
-/

/-- C7: `create_trade` returns the parsed provider response when the
transport succeeds, and the synthetic `{"code": -1, "msg": str(err)}`
response when the HTTP post or response parsing raises; being a total
function into `Payload`, it never propagates the transport exception. -/
theorem C7_create_trade_transport (md5 : String → String) (cfg : EzfpConfig)
    (pay_type out_trade_no : String) (amount : Money) (client_ip ua : String)
    (transport : Payload → Except String Payload) :
    (∀ err : String, (∀ q, transport q = Except.error err) →
      create_trade md5 cfg pay_type out_trade_no amount client_ip ua transport =
        [("code", PyVal.int (-1)), ("msg", PyVal.str err)]) ∧
    (∀ resp : Payload, (∀ q, transport q = Except.ok resp) →
      create_trade md5 cfg pay_type out_trade_no amount client_ip ua transport =
        resp) := by
  constructor
  · intro err h
    unfold create_trade
    simp only [h]
  · intro resp h
    unfold create_trade
    simp only [h]

/-- A concrete EZFP configuration for witnesses. -/
def ezfp_demo_cfg : EzfpConfig :=
  { pid := "1000", pid_int := 1000, key := "K",
    callback_host := "https://host/", webui_name := "OpenWebUI" }

/-- C7 (witness): a transport that raises `"boom"` yields the synthetic
error response, at concrete arguments. -/
theorem C7_create_trade_transport_witness :
    create_trade id ezfp_demo_cfg "alipay" "t1" tenUnits "1.2.3.4" ""
      (fun _ => Except.error "boom") =
      [("code", PyVal.int (-1)), ("msg", PyVal.str "boom")] :=
  (C7_create_trade_transport id ezfp_demo_cfg "alipay" "t1" tenUnits "1.2.3.4" ""
    (fun _ => Except.error "boom")).1 "boom" (fun _ => rfl)

/-- `init_credit_by_user_id` never touches the credit log, the trade
tickets or the clock. -/
theorem init_fst_preserve (cfg : CreditConfig) (db : DB) (u : String) (i : Bool) :
    (init_credit_by_user_id cfg db u i).1.credit_logs = db.credit_logs ∧
    (init_credit_by_user_id cfg db u i).1.trade_tickets = db.trade_tickets ∧
    (init_credit_by_user_id cfg db u i).1.now = db.now := by
  unfold init_credit_by_user_id
  cases h : get_credit_by_user_id db u with
  | some c => simp
  | none =>
    unfold insert_new_credit
    by_cases hc : (db.credits.any (fun c => c.user_id == u) || !i) = true
    · rw [if_pos hc]
      simp
    · rw [if_neg hc]
      simp

/-- When `init_credit_by_user_id` returns a row, that row is the one a
subsequent read of the user finds, and it belongs to the user. -/
theorem init_ok_get (cfg : CreditConfig) (db : DB) (u : String) (i : Bool)
    (db1 : DB) (c : CreditRow)
    (h : init_credit_by_user_id cfg db u i = (db1, Except.ok c)) :
    get_credit_by_user_id db1 u = some c ∧ c.user_id = u := by
  unfold init_credit_by_user_id at h
  cases hg : get_credit_by_user_id db u with
  | some c0 =>
    rw [hg] at h
    injection h with h1 h2
    injection h2 with h2
    subst h1
    subst h2
    refine ⟨hg, ?_⟩
    unfold get_credit_by_user_id at hg
    simpa using List.find?_some hg
  | none =>
    rw [hg] at h
    unfold insert_new_credit at h
    by_cases hc : (db.credits.any (fun c => c.user_id == u) || !i) = true
    · rw [if_pos hc] at h
      simp at h
    · rw [if_neg hc] at h
      injection h with h1 h2
      injection h2 with h2
      subst h1
      subst h2
      constructor
      · unfold get_credit_by_user_id at hg ⊢
        rw [List.find?_append, hg]
        simp [List.find?]
      · rfl

/-- Reading back a user row after the per-user conditional update the
set/add paths perform inside their transaction. -/
theorem find?_map_update (l : List CreditRow) (u : String)
    (f : CreditRow → CreditRow) (hf : ∀ c, (f c).user_id = c.user_id) :
    (l.map (fun c => if c.user_id == u then f c else c)).find?
        (fun c => c.user_id == u) =
      (l.find? (fun c => c.user_id == u)).map f := by
  induction l with
  | nil => rfl
  | cons a t ih =>
    by_cases ha : (a.user_id == u) = true
    · simp only [List.map_cons, if_pos ha]
      rw [List.find?_cons_of_pos (p := fun c : CreditRow => c.user_id == u) _ (by simpa [hf] using ha),
        List.find?_cons_of_pos (p := fun c : CreditRow => c.user_id == u) _ ha]
      rfl
    · simp only [List.map_cons, if_neg ha]
      rw [List.find?_cons_of_neg (p := fun c : CreditRow => c.user_id == u) _ (by simpa using ha),
        List.find?_cons_of_neg (p := fun c : CreditRow => c.user_id == u) _ (by simpa using ha)]
      exact ih

/-- The set path writes the log entry and the balance as one unit: on
success both are applied, on failure the state is exactly the post-init
state. -/
theorem set_credit_atomic (cfg : CreditConfig) (db : DB)
    (sform : SetCreditForm) (insertOk commitOk : Bool) :
    match set_credit_by_user_id cfg db sform insertOk commitOk with
    | (db2, Except.ok _) =>
      (∃ lg, db2.credit_logs = db.credit_logs ++ [lg] ∧ lg.user_id = sform.user_id ∧
         lg.credit = sform.credit) ∧
      (get_credit_by_user_id db2 sform.user_id).map (fun c => c.credit) =
        some sform.credit
    | (db2, Except.error _) =>
      db2 = (init_credit_by_user_id cfg db sform.user_id insertOk).1 ∧
      db2.credit_logs = db.credit_logs := by
  rcases hinit : init_credit_by_user_id cfg db sform.user_id insertOk with ⟨db1, r⟩
  have hpres := init_fst_preserve cfg db sform.user_id insertOk
  rw [hinit] at hpres
  unfold set_credit_by_user_id
  rw [hinit]
  cases r with
  | error e => exact ⟨rfl, hpres.1⟩
  | ok c =>
    obtain ⟨hget, huser⟩ := init_ok_get cfg db sform.user_id insertOk db1 c hinit
    cases commitOk with
    | false => exact ⟨rfl, hpres.1⟩
    | true =>
      refine ⟨⟨({ id := freshId db1
                  user_id := sform.user_id
                  credit := sform.credit
                  detail := sform.detail
                  created_at := db1.now } : CreditLogRow), ?_, rfl, rfl⟩, ?_⟩
      · show db1.credit_logs ++ _ = db.credit_logs ++ _
        rw [hpres.1]
      · show (List.find? _ (db1.credits.map _)).map _ = _
        rw [huser]
        rw [find?_map_update db1.credits sform.user_id
          (fun c' => { c' with credit := sform.credit, updated_at := db1.now })
          (fun c' => rfl)]
        unfold get_credit_by_user_id at hget
        rw [hget]
        rfl

/-- The add path appends a log entry whose snapshot equals the resulting
balance (serial execution), as one unit with the balance increment: on
failure the state is exactly the post-init state. -/
theorem add_credit_atomic (cfg : CreditConfig) (db : DB)
    (aform : AddCreditForm) (insertOk commitOk : Bool) :
    match add_credit_by_user_id cfg db aform insertOk commitOk with
    | (db2, Except.ok _) =>
      ∃ lg, db2.credit_logs = db.credit_logs ++ [lg] ∧ lg.user_id = aform.user_id ∧
        (get_credit_by_user_id db2 aform.user_id).map (fun c => c.credit) =
          some lg.credit
    | (db2, Except.error _) =>
      db2 = (init_credit_by_user_id cfg db aform.user_id insertOk).1 ∧
      db2.credit_logs = db.credit_logs := by
  rcases hinit : init_credit_by_user_id cfg db aform.user_id insertOk with ⟨db1, r⟩
  have hpres := init_fst_preserve cfg db aform.user_id insertOk
  rw [hinit] at hpres
  unfold add_credit_by_user_id
  rw [hinit]
  cases r with
  | error e => exact ⟨rfl, hpres.1⟩
  | ok c =>
    obtain ⟨hget, huser⟩ := init_ok_get cfg db aform.user_id insertOk db1 c hinit
    cases commitOk with
    | false => exact ⟨rfl, hpres.1⟩
    | true =>
      refine ⟨({ id := freshId db1
                 user_id := aform.user_id
                 credit := c.credit + aform.amount
                 detail := aform.detail
                 created_at := db1.now } : CreditLogRow), ?_, rfl, ?_⟩
      · show db1.credit_logs ++ _ = db.credit_logs ++ _
        rw [hpres.1]
      · show (List.find? _ (db1.credits.map _)).map _ = _
        rw [find?_map_update db1.credits aform.user_id
          (fun c' => { c' with
                       credit := c'.credit + aform.amount
                       updated_at := db1.now })
          (fun c' => rfl)]
        unfold get_credit_by_user_id at hget
        rw [hget]
        rfl

/-- C2: for every user and every set or add operation, the credit-log
append and the balance write form one atomic unit: on success the log
entry and the balance change are both persisted (and the add-path log
snapshot equals the resulting balance); on a persistence failure the
state is exactly the post-lazy-init state — in particular the log is
untouched and no balance write happened. -/
theorem C2_set_add_atomic (cfg : CreditConfig) (db : DB)
    (sform : SetCreditForm) (aform : AddCreditForm) (insertOk commitOk : Bool) :
    (match set_credit_by_user_id cfg db sform insertOk commitOk with
     | (db2, Except.ok _) =>
       (∃ lg, db2.credit_logs = db.credit_logs ++ [lg] ∧ lg.user_id = sform.user_id ∧
          lg.credit = sform.credit) ∧
       (get_credit_by_user_id db2 sform.user_id).map (fun c => c.credit) =
         some sform.credit
     | (db2, Except.error _) =>
       db2 = (init_credit_by_user_id cfg db sform.user_id insertOk).1 ∧
       db2.credit_logs = db.credit_logs) ∧
    (match add_credit_by_user_id cfg db aform insertOk commitOk with
     | (db2, Except.ok _) =>
       ∃ lg, db2.credit_logs = db.credit_logs ++ [lg] ∧ lg.user_id = aform.user_id ∧
         (get_credit_by_user_id db2 aform.user_id).map (fun c => c.credit) =
           some lg.credit
     | (db2, Except.error _) =>
       db2 = (init_credit_by_user_id cfg db aform.user_id insertOk).1 ∧
       db2.credit_logs = db.credit_logs) :=
  ⟨set_credit_atomic cfg db sform insertOk commitOk,
   add_credit_atomic cfg db aform insertOk commitOk⟩

/-- The conversation id the metadata carries (`metadata.get("chat_id")`). -/
def mdChat (md : Option (List (String × String))) : Option String :=
  match md with
  | some l => metaGet l "chat_id"
  | none => none

/-- The message id the metadata carries
(`metadata.get("message_id") or metadata.get("id")`). -/
def mdMsg (md : Option (List (String × String))) : Option String :=
  match md with
  | some l => pyOr (metaGet l "message_id") (metaGet l "id")
  | none => none

/-- A state where user `"u1"` has balance exactly `0`. -/
def db_zero : DB :=
  { credits := [{ id := "c-u1", user_id := "u1", credit := 0,
                  updated_at := 0, created_at := 0 }]
    credit_logs := []
    trade_tickets := [] }

/-- A state where user `"u1"` has balance `0.000000000001`. -/
def db_tiny : DB :=
  { credits := [{ id := "c-u1", user_id := "u1", credit := microUnit,
                  updated_at := 0, created_at := 0 }]
    credit_logs := []
    trade_tickets := [] }

/-- C5: the balance gate raises HTTP 403 carrying the given message
exactly when the user's balance is `<= 0` and succeeds otherwise; the
chat annotation is written exactly when the gate fails and the metadata
carries a truthy conversation id and a truthy message id. -/
theorem C5_check_credit_gate (cfg : CreditConfig) (db : DB) (u msg : String)
    (md : Option (List (String × String))) (i : Bool) (c : CreditRow)
    (hg : get_credit_by_user_id db u = some c) :
    (check_credit_by_user_id cfg db u msg md i).2.2 =
      (if c.credit ≤ 0 then Except.error ⟨403, msg⟩ else Except.ok ()) ∧
    (check_credit_by_user_id cfg db u msg md i).2.1 =
      (if c.credit ≤ 0 ∧ pyTruthyOpt (mdChat md) = true ∧
          pyTruthyOpt (mdMsg md) = true
       then [⟨(mdChat md).getD "", (mdMsg md).getD "", msg⟩] else []) := by
  have hinit : init_credit_by_user_id cfg db u i = (db, Except.ok c) := by
    unfold init_credit_by_user_id
    rw [hg]
  unfold check_credit_by_user_id
  rw [hinit]
  dsimp only
  by_cases hle : c.credit ≤ 0
  · rw [if_pos hle]
    refine ⟨by simp [hle], ?_⟩
    cases md with
    | none => simp [mdChat, mdMsg, pyTruthyOpt]
    | some l =>
      cases l with
      | nil => simp [mdChat, metaGet, pyTruthyOpt]
      | cons a t =>
        dsimp only [List.isEmpty_cons]
        by_cases hchat : pyTruthyOpt (metaGet (a :: t) "chat_id") = true <;>
          by_cases hmid : pyTruthyOpt (pyOr (metaGet (a :: t) "message_id")
            (metaGet (a :: t) "id")) = true <;>
          simp [mdChat, mdMsg, hchat, hmid, hle]
  · rw [if_neg hle]
    refine ⟨by simp [hle], ?_⟩
    simp [hle]

/-- C5 (witness): balance `0` fails with 403 and annotates the chat
named in the metadata; balance `0.000000000001` passes. -/
theorem C5_check_credit_gate_witness :
    (check_credit_by_user_id cfg0 db_zero "u1" "no credit"
      (some [("chat_id", "c1"), ("message_id", "m1")]) true).2.2 =
        Except.error ⟨403, "no credit"⟩ ∧
    (check_credit_by_user_id cfg0 db_zero "u1" "no credit"
      (some [("chat_id", "c1"), ("message_id", "m1")]) true).2.1 =
        [⟨"c1", "m1", "no credit"⟩] ∧
    (check_credit_by_user_id cfg0 db_tiny "u1" "no credit" none true).2.2 =
        Except.ok () := by
  have h0 := C5_check_credit_gate cfg0 db_zero "u1" "no credit"
    (some [("chat_id", "c1"), ("message_id", "m1")]) true
    { id := "c-u1", user_id := "u1", credit := 0, updated_at := 0, created_at := 0 }
    (by rfl)
  have h1 := C5_check_credit_gate cfg0 db_tiny "u1" "no credit" none true
    { id := "c-u1", user_id := "u1", credit := microUnit, updated_at := 0, created_at := 0 }
    (by rfl)
  refine ⟨?_, ?_, ?_⟩
  · rw [h0.1]
    rfl
  · rw [h0.2]
    rfl
  · rw [h1.1]
    rfl

/-!
## Claims C1, C8, C9, C10: ticket settlement, scenario, duplicate
tickets, log listing
-/

/-- C1 (the code at the failing input): settling ticket `"t1"` (amount
`10.000000000000`, user `"u1"`, starting balance `0`) twice credits the
user twice — the final balance is `20.000000000000` and two log rows were
appended.  `update_credit_by_id` has no settled-flag or any other
idempotency guard, so the second invocation is neither a no-op nor
rejected, contradicting the stated invariant. -/
theorem C1_double_settlement_double_credits :
    (get_credit_by_user_id scenario_settled_twice "u1").map (fun c => c.credit) =
      some (tenUnits + tenUnits) ∧
    scenario_settled_twice.credit_logs.length = 2 := by
  refine ⟨by decide, by decide⟩

/-- C8: settling ticket `"t1"` for user `"u1"` and amount `10.00` from
balance `0` leaves balance exactly `10.000000000000` and exactly one log
entry for `"u1"`, with snapshot `10.000000000000` (the post-increment
balance, not the delta) and detail description `"payment success"`; and
in general a successful add appends one log entry whose snapshot equals
the resulting balance. -/
theorem C8_settlement_scenario :
    (get_credit_by_user_id scenario_settled "u1").map (fun c => c.credit) =
      some tenUnits ∧
    scenario_settled.credit_logs.filter (fun l => l.user_id == "u1") =
      [{ id := "row-0", user_id := "u1", credit := tenUnits,
         detail := { desc := "payment success" }, created_at := 0 }] ∧
    (∀ (cfg : CreditConfig) (db : DB) (form : AddCreditForm) (insertOk commitOk : Bool),
      match add_credit_by_user_id cfg db form insertOk commitOk with
      | (db2, Except.ok _) =>
        ∃ lg, db2.credit_logs = db.credit_logs ++ [lg] ∧ lg.user_id = form.user_id ∧
          (get_credit_by_user_id db2 form.user_id).map (fun c => c.credit) =
            some lg.credit
      | (db2, Except.error _) =>
        db2 = (init_credit_by_user_id cfg db form.user_id insertOk).1 ∧
        db2.credit_logs = db.credit_logs) :=
  ⟨by decide, by decide, fun cfg db form insertOk commitOk =>
    add_credit_atomic cfg db form insertOk commitOk⟩

/-- C9 (counterexample): creating a ticket whose id `"t1"` already exists
fails with an HTTP 500 error — the spec's "internal" kind wrapping the
unique-constraint failure — not a distinct "conflict" kind; the store is
returned unchanged. -/
theorem C9_duplicate_ticket_http500 :
    insert_new_ticket scenario_db "t1" "u2" tenUnits [] =
      (scenario_db,
        Except.error ⟨500, "UNIQUE constraint failed: trade_ticket.id"⟩) := by
  rfl

/-- C9 (amended): creating a ticket with an id that already exists always
fails — with the HTTP 500 internal kind wrapping the duplicate-key
persistence error — and leaves the whole store (hence the existing
ticket) unchanged. -/
theorem C9_duplicate_ticket_rejected (db : DB) (id u : String) (a : Money)
    (d : List (String × String))
    (h : db.trade_tickets.any (fun t => t.id == id) = true) :
    insert_new_ticket db id u a d =
      (db, Except.error ⟨500, "UNIQUE constraint failed: trade_ticket.id"⟩) := by
  unfold insert_new_ticket
  rw [if_pos h]

/-- C9 (witness): the amended statement at the scenario store, which
already holds ticket `"t1"`. -/
theorem C9_duplicate_ticket_rejected_witness :
    insert_new_ticket scenario_db "t1" "u9" microUnit [("k", "v")] =
      (scenario_db,
        Except.error ⟨500, "UNIQUE constraint failed: trade_ticket.id"⟩) :=
  C9_duplicate_ticket_rejected scenario_db "t1" "u9" microUnit [("k", "v")] (by decide)

/-- Inserting into the descending-sorted list grows it by one. -/
theorem length_insertLogDesc (x : CreditLogRow) (l : List CreditLogRow) :
    (insertLogDesc x l).length = l.length + 1 := by
  induction l with
  | nil => rfl
  | cons y ys ih =>
    unfold insertLogDesc
    by_cases h : y.created_at ≤ x.created_at
    · rw [if_pos h]
      rfl
    · rw [if_neg h]
      simp [ih]

/-- The descending sort keeps every row. -/
theorem length_sortLogsDesc (l : List CreditLogRow) :
    (sortLogsDesc l).length = l.length := by
  induction l with
  | nil => rfl
  | cons y ys ih =>
    unfold sortLogsDesc
    rw [length_insertLogDesc, ih]
    rfl

/-- Membership in the sorted insertion. -/
theorem mem_insertLogDesc (z x : CreditLogRow) (l : List CreditLogRow) :
    z ∈ insertLogDesc x l ↔ z = x ∨ z ∈ l := by
  induction l with
  | nil => simp [insertLogDesc]
  | cons y ys ih =>
    unfold insertLogDesc
    by_cases h : y.created_at ≤ x.created_at
    · rw [if_pos h]
      simp [or_comm, or_assoc, or_left_comm]
    · rw [if_neg h]
      simp [ih]
      tauto

/-- Sorted insertion preserves the newest-first ordering. -/
theorem pairwise_insertLogDesc (x : CreditLogRow) (l : List CreditLogRow)
    (h : l.Pairwise (fun a b => b.created_at ≤ a.created_at)) :
    (insertLogDesc x l).Pairwise (fun a b => b.created_at ≤ a.created_at) := by
  induction l with
  | nil => simp [insertLogDesc]
  | cons y ys ih =>
    rw [List.pairwise_cons] at h
    unfold insertLogDesc
    by_cases hxy : y.created_at ≤ x.created_at
    · rw [if_pos hxy]
      rw [List.pairwise_cons]
      refine ⟨?_, List.pairwise_cons.mpr h⟩
      intro z hz
      rcases List.mem_cons.mp hz with rfl | hz
      · exact hxy
      · exact le_trans (h.1 z hz) hxy
    · rw [if_neg hxy]
      rw [List.pairwise_cons]
      refine ⟨?_, ih h.2⟩
      intro z hz
      rcases (mem_insertLogDesc z x ys).mp hz with rfl | hz
      · exact le_of_lt (lt_of_not_le hxy)
      · exact h.1 z hz

/-- The listing's sort really is newest-first. -/
theorem pairwise_sortLogsDesc (l : List CreditLogRow) :
    (sortLogsDesc l).Pairwise (fun a b => b.created_at ≤ a.created_at) := by
  induction l with
  | nil => simp [sortLogsDesc]
  | cons y ys ih =>
    unfold sortLogsDesc
    exact pairwise_insertLogDesc y (sortLogsDesc ys) ih

/-- C10: the credit-log listing treats `limit = 0` and `offset = 0` the
same as omitting them — `offset=0` skips nothing and `limit=0` returns
all of the user's entries (one listed row per matching stored row),
newest-first. -/
theorem C10_log_listing_zero_is_omitted (db : DB) (u : String) :
    get_credit_log_by_user_id db u (some 0) (some 0) =
      get_credit_log_by_user_id db u none none ∧
    get_credit_log_by_user_id db u none (some 0) =
      get_credit_log_by_user_id db u none none ∧
    get_credit_log_by_user_id db u (some 0) none =
      get_credit_log_by_user_id db u none none ∧
    (get_credit_log_by_user_id db u none none).length =
      (db.credit_logs.filter (fun l => l.user_id == u)).length ∧
    (get_credit_log_by_user_id db u none none).Pairwise
      (fun a b => b.created_at ≤ a.created_at) := by
  refine ⟨?_, ?_, ?_, ?_, ?_⟩
  · unfold get_credit_log_by_user_id
    simp
  · unfold get_credit_log_by_user_id
    simp
  · unfold get_credit_log_by_user_id
    simp
  · unfold get_credit_log_by_user_id
    exact length_sortLogsDesc _
  · unfold get_credit_log_by_user_id
    exact pairwise_sortLogsDesc _
